import Mathlib

/-!
Verification of the CropCheck AI wizard (src/app.py).

The script drives a five-stage diagnosis pipeline against five JamAI
action tables.  Two Streamlit buttons act as the submit operations:
the first button runs stages 1-2 (detect + follow-up question), the
second runs stages 3-5 (causes, solution, final conclusion).  Mutable
interaction state lives in st.session_state, a flat string-valued map
initialised by a setdefault loop.

The embedding below models:
 * the session state as a record `SessionState` with one field per
   session key initialised by the setdefault loop;
 * a gateway response row as an association list of column name to
   `Cell` (a cell may lack a text value, like the duck-typed cells
   the script reads with `safe_text`);
 * the external gateway as an oracle `Gateway` mapping a table id and
   a request dictionary to either a response row or a raised error;
 * each button handler as a pure function from the pre-press state
   (plus the oracle and the user-supplied widget values) to a
   `StepResult`: the post-press state, the surfaced error if any, and
   the ordered trace of gateway calls actually issued.
-/

/-- Table id of stage 1 (app.py line 20). -/
def TABLE_DETECT : String := "1. Detect The Problem"

/-- Table id of stage 2 (app.py line 21). -/
def TABLE_FOLLOWUP : String := "2. Follow-Up Question"

/-- Table id of stage 3 (app.py line 22). -/
def TABLE_CAUSES : String := "3. Determine The Causes"

/-- Table id of stage 4 (app.py line 23). -/
def TABLE_SOLUTION : String := "4. Proposed Solution"

/-- Table id of stage 5 (app.py line 24). -/
def TABLE_FINAL : String := "5. Final Conclusion"

/-- A response cell. `text` is `none` when the cell object lacks a text
value (missing attribute or `None`), mirroring the duck-typed access
`getattr(cell, "text", "")` in app.py. -/
structure Cell where
  text : Option String
deriving Repr, DecidableEq

/-- A gateway response row: column id to cell, as returned by
`call_action_table` (app.py lines 70-81). -/
abbrev Cols := List (String × Cell)

/-- A request dictionary: input column id to string value. -/
abbrev ReqData := List (String × String)

/-- Dictionary lookup on an association list (Python `dict.get`). -/
def dlookup {α : Type} (d : List (String × α)) (k : String) : Option α :=
  match d with
  | [] => none
  | (k2, v) :: rest => if k2 = k then some v else dlookup rest k

/-- `cols.get(column_id)` on a response row. -/
def colsGet (cols : Cols) (k : String) : Option Cell :=
  dlookup cols k

/-- app.py lines 54-58: `safe_text(cell)` returns
`getattr(cell, "text", "") or ""` under a try/except, i.e. the empty
string when the cell is absent or has no text value, and the text
otherwise.  Total by construction: it never raises. -/
def safe_text (cell : Option Cell) : String :=
  match cell with
  | none => ""
  | some c =>
    match c.text with
    | none => ""
    | some s => s

/-- The file-storage response object: it may or may not carry a `uri`
attribute. -/
structure UploadResp where
  uri : Option String
deriving Repr, DecidableEq

/-- app.py lines 37-51: data behaviour of `upload_to_jamai` once the
storage call has succeeded with response `resp`: the function returns
`getattr(resp, "uri", "")`, i.e. the empty string when the response
lacks a uri. -/
def upload_to_jamai (resp : UploadResp) : String :=
  match resp.uri with
  | none => ""
  | some u => u

/-- The external inference gateway as an oracle: table id and request
data to a response row, or a raised error (`Except.error`). -/
abbrev Gateway := String → ReqData → Except Unit Cols

/-- The outcomes surfaced to the user by a button press, other than
success: the `st.error` on client construction failure, the three
`st.warning` validation messages, a raised upload failure, and a
raised gateway failure. -/
inductive StepError where
  | clientError
  | noImage
  | emptyDescription
  | emptyAnswer
  | uploadError
  | gatewayError
deriving Repr, DecidableEq

/-- The validation outcomes (missing or empty user-supplied input),
the script's counterpart of the spec's ValidationError. -/
def isValidationError : StepError → Bool
  | StepError.noImage => true
  | StepError.emptyDescription => true
  | StepError.emptyAnswer => true
  | _ => false

/-- The session state: one field per key of the setdefault loop
(app.py lines 101-119).  Stage outputs: stage 1 stores crop_type,
initial_guess, conf_problem; stage 2 stores clarifying_q, purpose_q;
stage 3 stores root_cause, reasoning; stage 4 stores
recommended_solution, safety_avoid, conf_solution; stage 5 stores
summary, future_tips.  Session-level inputs: description, image_uri.
user_answer is the user's answer to the clarifying question. -/
structure SessionState where
  crop_type : String
  initial_guess : String
  conf_problem : String
  clarifying_q : String
  purpose_q : String
  user_answer : String
  root_cause : String
  reasoning : String
  recommended_solution : String
  safety_avoid : String
  conf_solution : String
  summary : String
  future_tips : String
  description : String
  image_uri : String
deriving Repr, DecidableEq

/-- The state right after the setdefault loop: every key defaults to
the empty string (app.py lines 101-119). -/
def initState : SessionState :=
  ⟨"", "", "", "", "", "", "", "", "", "", "", "", "", "", ""⟩

/-- Result of one button press: post-press session state, surfaced
error if any, and the ordered list of gateway calls issued. -/
structure StepResult where
  state : SessionState
  err : Option StepError
  calls : List (String × ReqData)
deriving Repr, DecidableEq

/-- app.py lines 174-176: the request sent to TABLE_DETECT (stage 1):
the fresh artifact reference and the user's description. -/
def detectRequest (img_uri descr : String) : ReqData :=
  [("Crop Image", img_uri), ("Description", descr)]

/-- app.py lines 201-205: the request sent to TABLE_FOLLOWUP (stage 2),
built from the stage-1 outputs just stored in the session state. -/
def followupRequest (s : SessionState) : ReqData :=
  [("Crop Type", s.crop_type),
   ("Initial Problem Guess", s.initial_guess),
   ("Confidence Score Problem", s.conf_problem)]

/-- app.py lines 253-258: the request sent to TABLE_CAUSES (stage 3):
stage-1 outputs, the user's answer, and the session description. -/
def causesRequest (s : SessionState) : ReqData :=
  [("Crop Type", s.crop_type),
   ("Initial Problem Guess", s.initial_guess),
   ("User Answer", s.user_answer),
   ("Description", s.description)]

/-- app.py lines 271-277: the request sent to TABLE_SOLUTION (stage 4):
stage-1 outputs, the stage-3 root cause just stored, and the user's
answer. -/
def solutionRequest (s : SessionState) : ReqData :=
  [("Crop Type", s.crop_type),
   ("Root Cause", s.root_cause),
   ("Initial Problem Guess", s.initial_guess),
   ("User Answer", s.user_answer)]

/-- app.py lines 292-298: the request sent to TABLE_FINAL (stage 5):
crop type, root cause, the user's answer (key "Users Answer" in the
source), and the stage-4 recommended solution just stored. -/
def finalRequest (s : SessionState) : ReqData :=
  [("Crop Type", s.crop_type),
   ("Root Cause", s.root_cause),
   ("Users Answer", s.user_answer),
   ("Recommended Solution", s.recommended_solution)]

/-- A character removed by Python `str.strip()`: ASCII whitespace. -/
def isStripChar (c : Char) : Bool :=
  c = ' ' || c = '\t' || c = '\n' || c = '\r' || c = '\x0B' || c = '\x0C'

/-- Python's `not s.strip()` truthiness test used by the validation
checks (app.py lines 161 and 241): true iff stripping whitespace
leaves the empty string, i.e. every character is whitespace. -/
def stripEmpty (s : String) : Bool :=
  s.data.all isStripChar

/-- app.py lines 166-167: capture of the session-level inputs, written
before the stage-1 gateway call. -/
def sessionCapture (s : SessionState) (img_uri descr : String) : SessionState :=
  { s with image_uri := img_uri, description := descr }

/-- app.py lines 180-186: extraction and storage of the stage-1
outputs from the TABLE_DETECT response. -/
def stage1Store (s : SessionState) (cols1 : Cols) : SessionState :=
  { s with
    crop_type := safe_text (colsGet cols1 "Crop Type"),
    initial_guess := safe_text (colsGet cols1 "Initial Problem Guess"),
    conf_problem := safe_text (colsGet cols1 "Confidence Score Problem") }

/-- app.py lines 208-212: extraction and storage of the stage-2
outputs from the TABLE_FOLLOWUP response. -/
def stage2Store (s : SessionState) (cols2 : Cols) : SessionState :=
  { s with
    clarifying_q := safe_text (colsGet cols2 "Clarifying Question"),
    purpose_q := safe_text (colsGet cols2 "Purpose of Question") }

/-- app.py lines 262-266: extraction and storage of the stage-3
outputs from the TABLE_CAUSES response. -/
def stage3Store (s : SessionState) (cols3 : Cols) : SessionState :=
  { s with
    root_cause := safe_text (colsGet cols3 "Root Cause"),
    reasoning := safe_text (colsGet cols3 "Reasoning") }

/-- app.py lines 281-287: extraction and storage of the stage-4
outputs from the TABLE_SOLUTION response. -/
def stage4Store (s : SessionState) (cols4 : Cols) : SessionState :=
  { s with
    recommended_solution := safe_text (colsGet cols4 "Recommended Solution"),
    safety_avoid := safe_text (colsGet cols4 "Safety or Avoid List"),
    conf_solution := safe_text (colsGet cols4 "Confidence Score Solution") }

/-- app.py lines 302-306: extraction and storage of the stage-5
outputs from the TABLE_FINAL response. -/
def stage5Store (s : SessionState) (cols5 : Cols) : SessionState :=
  { s with
    summary := safe_text (colsGet cols5 "Summary"),
    future_tips := safe_text (colsGet cols5 "Future Prevention Tips") }

/-- app.py lines 153-215, the run_step1_btn handler (stages 1-2).
`clientOk` is whether `get_client` succeeds, `imgFile` whether an
image was uploaded, `upload` the outcome of the storage call, `descr`
the text-area value.  Order of effects follows the source: client
construction, image check, description check, upload, capture of
session inputs, TABLE_DETECT call, storage of stage-1 outputs,
TABLE_FOLLOWUP call, storage of stage-2 outputs.  A raised gateway
error aborts the handler leaving the writes made so far in place. -/
def run_step1 (clientOk : Bool) (imgFile : Bool) (upload : Except Unit UploadResp)
    (descr : String) (gw : Gateway) (s : SessionState) : StepResult :=
  if !clientOk then ⟨s, some StepError.clientError, []⟩
  else if !imgFile then ⟨s, some StepError.noImage, []⟩
  else if stripEmpty descr then ⟨s, some StepError.emptyDescription, []⟩
  else
    match upload with
    | Except.error _ => ⟨s, some StepError.uploadError, []⟩
    | Except.ok resp =>
      let img_uri := upload_to_jamai resp
      let s1 := sessionCapture s img_uri descr
      let req1 := detectRequest img_uri descr
      match gw TABLE_DETECT req1 with
      | Except.error _ => ⟨s1, some StepError.gatewayError, [(TABLE_DETECT, req1)]⟩
      | Except.ok cols1 =>
        let s2 := stage1Store s1 cols1
        let req2 := followupRequest s2
        match gw TABLE_FOLLOWUP req2 with
        | Except.error _ =>
          ⟨s2, some StepError.gatewayError,
            [(TABLE_DETECT, req1), (TABLE_FOLLOWUP, req2)]⟩
        | Except.ok cols2 =>
          ⟨stage2Store s2 cols2, none,
            [(TABLE_DETECT, req1), (TABLE_FOLLOWUP, req2)]⟩

/-- app.py lines 240-306, the run_rest_btn handler (stages 3-5).
Order of effects follows the source: answer check, client
construction, TABLE_CAUSES call, storage of stage-3 outputs,
TABLE_SOLUTION call, storage of stage-4 outputs, TABLE_FINAL call,
storage of stage-5 outputs.  A raised gateway error aborts the
handler leaving the writes made so far in place. -/
def run_rest (clientOk : Bool) (gw : Gateway) (s : SessionState) : StepResult :=
  if stripEmpty s.user_answer then ⟨s, some StepError.emptyAnswer, []⟩
  else if !clientOk then ⟨s, some StepError.clientError, []⟩
  else
    let req3 := causesRequest s
    match gw TABLE_CAUSES req3 with
    | Except.error _ => ⟨s, some StepError.gatewayError, [(TABLE_CAUSES, req3)]⟩
    | Except.ok cols3 =>
      let s3 := stage3Store s cols3
      let req4 := solutionRequest s3
      match gw TABLE_SOLUTION req4 with
      | Except.error _ =>
        ⟨s3, some StepError.gatewayError,
          [(TABLE_CAUSES, req3), (TABLE_SOLUTION, req4)]⟩
      | Except.ok cols4 =>
        let s4 := stage4Store s3 cols4
        let req5 := finalRequest s4
        match gw TABLE_FINAL req5 with
        | Except.error _ =>
          ⟨s4, some StepError.gatewayError,
            [(TABLE_CAUSES, req3), (TABLE_SOLUTION, req4), (TABLE_FINAL, req5)]⟩
        | Except.ok cols5 =>
          ⟨stage5Store s4 cols5, none,
            [(TABLE_CAUSES, req3), (TABLE_SOLUTION, req4), (TABLE_FINAL, req5)]⟩

/-- Modelled from the spec: the reset/restart operation of the wizard.
src/app.py contains no reset handler (only the setdefault
initialisation at lines 101-119); per the spec, reset clears the
session keys back to their setdefault defaults in one step, from any
state, and always succeeds. -/
def reset (_ : SessionState) : SessionState := initState

/-- A gateway on which every call raises. -/
def gwFail : Gateway := fun _ _ => Except.error ()

/-- A gateway returning an empty response row on every call. -/
def gwEmptyOk : Gateway := fun _ _ => Except.ok []

/-- Stage-1 demo response row: mango with suspected anthracnose. -/
def demoCols1 : Cols :=
  [("Crop Type", ⟨some "mango"⟩),
   ("Initial Problem Guess", ⟨some "anthracnose"⟩),
   ("Confidence Score Problem", ⟨some "high"⟩)]

/-- Stage-2 demo response row. -/
def demoCols2 : Cols :=
  [("Clarifying Question", ⟨some "Q1"⟩),
   ("Purpose of Question", ⟨some "P1"⟩)]

/-- A gateway answering stages 1 and 2 with the demo rows and every
other call with an empty row. -/
def gwDemo : Gateway := fun t _ =>
  if t = TABLE_DETECT then Except.ok demoCols1
  else if t = TABLE_FOLLOWUP then Except.ok demoCols2
  else Except.ok []

/-- A gateway whose stage-1 response lacks the "Crop Type" column and
whose stage-2 response provides a clarifying question, so that the
crop_type key is never populated while steps 3-5 become reachable. -/
def gwNoCrop : Gateway := fun t _ =>
  if t = TABLE_DETECT then Except.ok [("Initial Problem Guess", ⟨some "rot"⟩)]
  else if t = TABLE_FOLLOWUP then Except.ok [("Clarifying Question", ⟨some "Q1"⟩)]
  else Except.ok []

/-- Helper: whatever the oracle answers, the first gateway call issued
by a validated run_rest press is the TABLE_CAUSES call. -/
theorem run_rest_first_call (gw : Gateway) (s : SessionState)
    (h : stripEmpty s.user_answer = false) :
    (run_rest true gw s).calls.head? = some (TABLE_CAUSES, causesRequest s) := by
  rcases h3 : gw TABLE_CAUSES (causesRequest s) with e | cols3
  · simp [run_rest, h, h3]
  · rcases h4 : gw TABLE_SOLUTION (solutionRequest (stage3Store s cols3)) with e | cols4
    · simp [run_rest, h, h3, h4]
    · rcases h5 : gw TABLE_FINAL (finalRequest (stage4Store (stage3Store s cols3) cols4)) with
        e | cols5
      · simp [run_rest, h, h3, h4, h5]
      · simp [run_rest, h, h3, h4, h5]

/-- Claim C3: reset is valid in every state, always succeeds, and
yields in one step the setdefault initial state: every session key,
in particular the session inputs (image_uri, description) and every
stage-output key, is the empty string, which is the state from which
no stage has run (current stage 0).  Being a single pure update, no
partially-reset state is observable. -/
theorem reset_clears_all_state :
    ∀ s : SessionState,
      reset s = initState ∧
      (reset s).image_uri = "" ∧ (reset s).description = "" ∧
      (reset s).crop_type = "" ∧ (reset s).initial_guess = "" ∧
      (reset s).conf_problem = "" ∧ (reset s).clarifying_q = "" ∧
      (reset s).purpose_q = "" ∧ (reset s).user_answer = "" ∧
      (reset s).root_cause = "" ∧ (reset s).reasoning = "" ∧
      (reset s).recommended_solution = "" ∧ (reset s).safety_avoid = "" ∧
      (reset s).conf_solution = "" ∧ (reset s).summary = "" ∧
      (reset s).future_tips = "" := by
  intro s
  exact ⟨rfl, rfl, rfl, rfl, rfl, rfl, rfl, rfl, rfl, rfl, rfl, rfl, rfl, rfl, rfl, rfl⟩

/-- Claim C5: referential-order invariant.  Each stage's request reads
only outputs of strictly earlier stages (or session inputs): the
stage-2 request is unchanged under arbitrary changes to the outputs of
stages 2-5, the stage-3 request under changes to stage 3-5 outputs,
the stage-4 request under changes to stage 4-5 outputs, and the
stage-5 request under changes to stage-5 outputs.  (The stage-1
request is built from the fresh upload reference and description
alone and takes no state argument at all.) -/
theorem referential_order_invariant :
    ∀ (s : SessionState) (a b c d e f g h i : String),
      followupRequest { s with
        clarifying_q := a, purpose_q := b, root_cause := c, reasoning := d,
        recommended_solution := e, safety_avoid := f, conf_solution := g,
        summary := h, future_tips := i } = followupRequest s
      ∧ causesRequest { s with
          root_cause := c, reasoning := d, recommended_solution := e,
          safety_avoid := f, conf_solution := g, summary := h,
          future_tips := i } = causesRequest s
      ∧ solutionRequest { s with
          recommended_solution := e, safety_avoid := f, conf_solution := g,
          summary := h, future_tips := i } = solutionRequest s
      ∧ finalRequest { s with
          summary := h, future_tips := i } = finalRequest s := by
  intro s a b c d e f g h i
  exact ⟨rfl, rfl, rfl, rfl⟩

/-- Claim C7: extracting an output field never errs: a column absent
from the response row, or present with no text value, resolves to the
empty string (safe_text is a total function into String). -/
theorem missing_fields_resolve_empty :
    safe_text none = ""
    ∧ (∀ c : Cell, c.text = none → safe_text (some c) = "")
    ∧ (∀ (cols : Cols) (k : String), dlookup cols k = none →
        safe_text (colsGet cols k) = "") := by
  refine ⟨rfl, ?_, ?_⟩
  · intro c hc
    cases c
    simp_all [safe_text]
  · intro cols k hk
    simp [colsGet, hk, safe_text]

/-- Witness for C7 at concrete inputs: a cell with no text value and a
column missing from the empty response row both resolve to "". -/
theorem missing_fields_resolve_empty_witness :
    safe_text (some ⟨none⟩) = "" ∧ safe_text (colsGet ([] : Cols) "Crop Type") = "" :=
  ⟨missing_fields_resolve_empty.2.1 ⟨none⟩ rfl,
   missing_fields_resolve_empty.2.2 [] "Crop Type" rfl⟩

/-- Counterexample to C1 as stated: a submit whose stage-1 gateway
call raises does NOT leave the session state exactly as it was before
the submit.  The handler writes the session inputs (image_uri,
description) before the gateway call, so after a failing press from
the initial state the state differs from the initial state even
though the gateway error is surfaced. -/
theorem run_step1_gateway_failure_mutates_state :
    (run_step1 true true (Except.ok ⟨some "uri1"⟩) "leaf spots" gwFail initState).err
        = some StepError.gatewayError
    ∧ (run_step1 true true (Except.ok ⟨some "uri1"⟩) "leaf spots" gwFail initState).state
        ≠ initState := by
  decide

/-- Counterexample to C2 as stated: one successful submit does not
complete exactly one stage.  A single successful press of the first
button from the initial state populates both a stage-1 output
(initial_guess) and a stage-2 output (clarifying_q), so after N = 1
successful submits the accumulated outputs cover two stages, not
one. -/
theorem single_submit_completes_two_stages :
    (run_step1 true true (Except.ok ⟨some "uri1"⟩) "spots" gwDemo initState).err = none
    ∧ (run_step1 true true (Except.ok ⟨some "uri1"⟩) "spots" gwDemo
        initState).state.initial_guess = "anthracnose"
    ∧ (run_step1 true true (Except.ok ⟨some "uri1"⟩) "spots" gwDemo
        initState).state.clarifying_q = "Q1"
    ∧ initState.clarifying_q = "" := by
  decide

/-- Counterexample to C8 as stated: resolving a carried input whose
source field was never populated does not fail.  Run the first button
against a gateway whose stage-1 row lacks the "Crop Type" column:
crop_type is never populated (stays ""), steps 3-5 become reachable
(nonempty clarifying question), and the second press succeeds with no
error, the carried "Crop Type" input resolving to the empty string
instead of a MissingDependency failure. -/
theorem unpopulated_carried_input_no_failure :
    ((run_step1 true true (Except.ok ⟨some "u"⟩) "d" gwNoCrop initState).state.crop_type = ""
      ∧ (run_step1 true true (Except.ok ⟨some "u"⟩) "d" gwNoCrop
          initState).state.clarifying_q = "Q1")
    ∧ (run_rest true gwNoCrop
        { (run_step1 true true (Except.ok ⟨some "u"⟩) "d" gwNoCrop initState).state with
          user_answer := "yes" }).err = none
    ∧ dlookup (causesRequest
        { (run_step1 true true (Except.ok ⟨some "u"⟩) "d" gwNoCrop initState).state with
          user_answer := "yes" }) "Crop Type" = some "" := by
  decide

/-- Claim C8 amended: resolving a carried input never fails.  All
session keys are pre-initialised to "" by the setdefault loop, so a
carried input whose source stage has not completed (or whose source
field was never populated) resolves to the stored value, the empty
string; the request dictionaries are total functions of the state,
and a validated press always proceeds to the gateway call with them.
No MissingDependency failure exists in the code. -/
theorem carried_resolution_total :
    ∀ (s : SessionState) (gw : Gateway),
      dlookup (causesRequest s) "Crop Type" = some s.crop_type
      ∧ dlookup (causesRequest s) "Initial Problem Guess" = some s.initial_guess
      ∧ dlookup (causesRequest s) "User Answer" = some s.user_answer
      ∧ dlookup (causesRequest s) "Description" = some s.description
      ∧ dlookup (solutionRequest s) "Root Cause" = some s.root_cause
      ∧ dlookup (finalRequest s) "Recommended Solution" = some s.recommended_solution
      ∧ (run_rest true gw { s with user_answer := "yes" }).calls.head? =
          some (TABLE_CAUSES, causesRequest { s with user_answer := "yes" }) := by
  intro s gw
  refine ⟨rfl, rfl, rfl, rfl, rfl, rfl, ?_⟩
  have h : stripEmpty (SessionState.user_answer { s with user_answer := "yes" }) = false := by
    show stripEmpty "yes" = false
    decide
  exact run_rest_first_call gw { s with user_answer := "yes" } h

/-- Claim C1 amended: gateway failure is atomic per stage with respect
to stage outputs, not with respect to the whole session state.  When a
stage's gateway call raises, the error is surfaced and the result
state carries no output of the failing stage nor of any later stage,
and every field not overwritten by the writes listed below keeps its
pre-press value (outputs of stages completed in earlier presses are
preserved); but the writes made before the failing call do land: a
stage-1 failure leaves the freshly captured session inputs (image_uri,
description), and a failure at stage 2, 4 or 5 leaves the outputs of
the stages completed earlier in the same press. -/
theorem gateway_failure_stagewise_characterization :
    ∀ (s q : SessionState) (up : UploadResp) (descr : String) (gw gw2 : Gateway)
      (cols1 cols3 cols4 : Cols),
      (stripEmpty descr = false →
        gw TABLE_DETECT (detectRequest (upload_to_jamai up) descr) = Except.error () →
        run_step1 true true (Except.ok up) descr gw s =
          ⟨sessionCapture s (upload_to_jamai up) descr, some StepError.gatewayError,
            [(TABLE_DETECT, detectRequest (upload_to_jamai up) descr)]⟩)
      ∧ (stripEmpty descr = false →
          gw TABLE_DETECT (detectRequest (upload_to_jamai up) descr) = Except.ok cols1 →
          gw TABLE_FOLLOWUP (followupRequest
            (stage1Store (sessionCapture s (upload_to_jamai up) descr) cols1)) =
              Except.error () →
          run_step1 true true (Except.ok up) descr gw s =
            ⟨stage1Store (sessionCapture s (upload_to_jamai up) descr) cols1,
              some StepError.gatewayError,
              [(TABLE_DETECT, detectRequest (upload_to_jamai up) descr),
               (TABLE_FOLLOWUP, followupRequest
                 (stage1Store (sessionCapture s (upload_to_jamai up) descr) cols1))]⟩)
      ∧ (stripEmpty q.user_answer = false →
          gw2 TABLE_CAUSES (causesRequest q) = Except.error () →
          run_rest true gw2 q =
            ⟨q, some StepError.gatewayError, [(TABLE_CAUSES, causesRequest q)]⟩)
      ∧ (stripEmpty q.user_answer = false →
          gw2 TABLE_CAUSES (causesRequest q) = Except.ok cols3 →
          gw2 TABLE_SOLUTION (solutionRequest (stage3Store q cols3)) = Except.error () →
          run_rest true gw2 q =
            ⟨stage3Store q cols3, some StepError.gatewayError,
              [(TABLE_CAUSES, causesRequest q),
               (TABLE_SOLUTION, solutionRequest (stage3Store q cols3))]⟩)
      ∧ (stripEmpty q.user_answer = false →
          gw2 TABLE_CAUSES (causesRequest q) = Except.ok cols3 →
          gw2 TABLE_SOLUTION (solutionRequest (stage3Store q cols3)) = Except.ok cols4 →
          gw2 TABLE_FINAL (finalRequest (stage4Store (stage3Store q cols3) cols4)) =
            Except.error () →
          run_rest true gw2 q =
            ⟨stage4Store (stage3Store q cols3) cols4, some StepError.gatewayError,
              [(TABLE_CAUSES, causesRequest q),
               (TABLE_SOLUTION, solutionRequest (stage3Store q cols3)),
               (TABLE_FINAL, finalRequest (stage4Store (stage3Store q cols3) cols4))]⟩) := by
  intro s q up descr gw gw2 cols1 cols3 cols4
  refine ⟨?_, ?_, ?_, ?_, ?_⟩
  · intro hd h1
    simp [run_step1, hd, h1]
  · intro hd h1 h2
    simp [run_step1, hd, h1, h2]
  · intro ha h3
    simp [run_rest, ha, h3]
  · intro ha h3 h4
    simp [run_rest, ha, h3, h4]
  · intro ha h3 h4 h5
    simp [run_rest, ha, h3, h4, h5]

/-- Witness for the amended C1 at a concrete input: from the initial
state, with an always-raising gateway, the press surfaces the gateway
error and leaves exactly the captured session inputs. -/
theorem gateway_failure_stagewise_characterization_witness :
    run_step1 true true (Except.ok ⟨some "u"⟩) "leaf" gwFail initState =
      ⟨sessionCapture initState "u" "leaf", some StepError.gatewayError,
        [(TABLE_DETECT, detectRequest "u" "leaf")]⟩ :=
  (gateway_failure_stagewise_characterization initState initState ⟨some "u"⟩ "leaf"
    gwFail gwFail [] [] []).1 (by decide) rfl

/-- Claim C2 amended: each successful submit completes a fixed block
of stages, not exactly one: a successful press of the first button
performs exactly the stage-1 and stage-2 gateway calls and stores the
session inputs and the stage-1 and stage-2 outputs, leaving every
stage-3/4/5 output unchanged; a successful press of the second button
performs exactly the stage-3, stage-4 and stage-5 calls and stores
their outputs, leaving the session inputs and the stage-1/2 outputs
unchanged.  After the two successful presses all five stages' outputs
are stored, in stage order. -/
theorem submit_blocks_characterization :
    ∀ (s q : SessionState) (up : UploadResp) (descr : String) (gw gw2 : Gateway)
      (cols1 cols2 cols3 cols4 cols5 : Cols),
      (stripEmpty descr = false →
        gw TABLE_DETECT (detectRequest (upload_to_jamai up) descr) = Except.ok cols1 →
        gw TABLE_FOLLOWUP (followupRequest
          (stage1Store (sessionCapture s (upload_to_jamai up) descr) cols1)) =
            Except.ok cols2 →
        run_step1 true true (Except.ok up) descr gw s =
          ⟨stage2Store (stage1Store (sessionCapture s (upload_to_jamai up) descr) cols1)
              cols2, none,
            [(TABLE_DETECT, detectRequest (upload_to_jamai up) descr),
             (TABLE_FOLLOWUP, followupRequest
               (stage1Store (sessionCapture s (upload_to_jamai up) descr) cols1))]⟩)
      ∧ (stripEmpty q.user_answer = false →
          gw2 TABLE_CAUSES (causesRequest q) = Except.ok cols3 →
          gw2 TABLE_SOLUTION (solutionRequest (stage3Store q cols3)) = Except.ok cols4 →
          gw2 TABLE_FINAL (finalRequest (stage4Store (stage3Store q cols3) cols4)) =
            Except.ok cols5 →
          run_rest true gw2 q =
            ⟨stage5Store (stage4Store (stage3Store q cols3) cols4) cols5, none,
              [(TABLE_CAUSES, causesRequest q),
               (TABLE_SOLUTION, solutionRequest (stage3Store q cols3)),
               (TABLE_FINAL, finalRequest (stage4Store (stage3Store q cols3) cols4))]⟩)
      ∧ ((stage2Store (stage1Store (sessionCapture s (upload_to_jamai up) descr) cols1)
            cols2).root_cause = s.root_cause
         ∧ (stage2Store (stage1Store (sessionCapture s (upload_to_jamai up) descr) cols1)
            cols2).reasoning = s.reasoning
         ∧ (stage2Store (stage1Store (sessionCapture s (upload_to_jamai up) descr) cols1)
            cols2).recommended_solution = s.recommended_solution
         ∧ (stage2Store (stage1Store (sessionCapture s (upload_to_jamai up) descr) cols1)
            cols2).safety_avoid = s.safety_avoid
         ∧ (stage2Store (stage1Store (sessionCapture s (upload_to_jamai up) descr) cols1)
            cols2).conf_solution = s.conf_solution
         ∧ (stage2Store (stage1Store (sessionCapture s (upload_to_jamai up) descr) cols1)
            cols2).summary = s.summary
         ∧ (stage2Store (stage1Store (sessionCapture s (upload_to_jamai up) descr) cols1)
            cols2).future_tips = s.future_tips)
      ∧ ((stage5Store (stage4Store (stage3Store q cols3) cols4) cols5).crop_type = q.crop_type
         ∧ (stage5Store (stage4Store (stage3Store q cols3) cols4) cols5).initial_guess
            = q.initial_guess
         ∧ (stage5Store (stage4Store (stage3Store q cols3) cols4) cols5).conf_problem
            = q.conf_problem
         ∧ (stage5Store (stage4Store (stage3Store q cols3) cols4) cols5).clarifying_q
            = q.clarifying_q
         ∧ (stage5Store (stage4Store (stage3Store q cols3) cols4) cols5).purpose_q
            = q.purpose_q
         ∧ (stage5Store (stage4Store (stage3Store q cols3) cols4) cols5).description
            = q.description
         ∧ (stage5Store (stage4Store (stage3Store q cols3) cols4) cols5).image_uri
            = q.image_uri) := by
  intro s q up descr gw gw2 cols1 cols2 cols3 cols4 cols5
  refine ⟨?_, ?_, ?_, ?_⟩
  · intro hd h1 h2
    simp [run_step1, hd, h1, h2]
  · intro ha h3 h4 h5
    simp [run_rest, ha, h3, h4, h5]
  · exact ⟨rfl, rfl, rfl, rfl, rfl, rfl, rfl⟩
  · exact ⟨rfl, rfl, rfl, rfl, rfl, rfl, rfl⟩

/-- Witness for the amended C2 at a concrete input: the first press
against the demo gateway succeeds and stores the session inputs and
the stage-1 and stage-2 demo outputs. -/
theorem submit_blocks_characterization_witness :
    run_step1 true true (Except.ok ⟨some "u"⟩) "spots" gwDemo initState =
      ⟨stage2Store (stage1Store (sessionCapture initState "u" "spots") demoCols1) demoCols2,
        none,
        [(TABLE_DETECT, detectRequest "u" "spots"),
         (TABLE_FOLLOWUP, followupRequest
           (stage1Store (sessionCapture initState "u" "spots") demoCols1))]⟩ :=
  (submit_blocks_characterization initState initState ⟨some "u"⟩ "spots" gwDemo gwDemo
    demoCols1 demoCols2 [] [] []).1 (by decide) rfl rfl

/-- Claim C4: carried inputs are threaded exactly.  If stage 1 returns
a row whose "Initial Problem Guess" extracts to "anthracnose", the
request the press actually sends to the follow-up table (the second
entry of the call trace) carries exactly that value under the carried
key; more generally the stage-3 request merges the session input
(Description), the user-supplied answer (User Answer) and the carried
stage-1 outputs, each bound to exactly the stored value. -/
theorem carried_input_threading :
    ∀ (s t : SessionState) (up : UploadResp) (descr : String) (gw : Gateway)
      (cols1 : Cols),
      (stripEmpty descr = false →
        gw TABLE_DETECT (detectRequest (upload_to_jamai up) descr) = Except.ok cols1 →
        safe_text (colsGet cols1 "Initial Problem Guess") = "anthracnose" →
        (run_step1 true true (Except.ok up) descr gw s).calls.get? 1 =
          some (TABLE_FOLLOWUP, followupRequest
            (stage1Store (sessionCapture s (upload_to_jamai up) descr) cols1))
        ∧ dlookup (followupRequest
            (stage1Store (sessionCapture s (upload_to_jamai up) descr) cols1))
            "Initial Problem Guess" = some "anthracnose")
      ∧ dlookup (causesRequest t) "User Answer" = some t.user_answer
      ∧ dlookup (causesRequest t) "Description" = some t.description
      ∧ dlookup (followupRequest t) "Initial Problem Guess" = some t.initial_guess := by
  intro s t up descr gw cols1
  refine ⟨?_, rfl, rfl, rfl⟩
  intro hd h1 hig
  constructor
  · rcases h2 : gw TABLE_FOLLOWUP (followupRequest
        (stage1Store (sessionCapture s (upload_to_jamai up) descr) cols1)) with e | cols2
    · simp [run_step1, hd, h1, h2]
    · simp [run_step1, hd, h1, h2]
  · rw [← hig]
    rfl

/-- Witness for C4 at a concrete input: against the demo gateway the
follow-up request actually issued carries "anthracnose". -/
theorem carried_input_threading_witness :
    (run_step1 true true (Except.ok ⟨some "u"⟩) "spots" gwDemo initState).calls.get? 1 =
      some (TABLE_FOLLOWUP, followupRequest
        (stage1Store (sessionCapture initState "u" "spots") demoCols1))
    ∧ dlookup (followupRequest
        (stage1Store (sessionCapture initState "u" "spots") demoCols1))
        "Initial Problem Guess" = some "anthracnose" :=
  (carried_input_threading initState initState ⟨some "u"⟩ "spots" gwDemo demoCols1).1
    (by decide) rfl rfl

/-- Claim C6: a press with a missing or empty required user input
fails with a validation warning, issues no gateway call, and returns
the session state unchanged (so the derived stage position cannot
advance): a first-button press with no uploaded image, or with an
all-whitespace description, and a second-button press with an
all-whitespace answer. -/
theorem validation_blocks_submit :
    ∀ (s : SessionState) (up : Except Unit UploadResp) (descr : String)
      (gw : Gateway) (imgFile c : Bool),
      ((imgFile = false ∨ stripEmpty descr = true) →
        ∃ e, run_step1 true imgFile up descr gw s = ⟨s, some e, []⟩
          ∧ isValidationError e = true)
      ∧ (stripEmpty s.user_answer = true →
          run_rest c gw s = ⟨s, some StepError.emptyAnswer, []⟩) := by
  intro s up descr gw imgFile c
  constructor
  · intro h
    cases imgFile with
    | false => exact ⟨StepError.noImage, by simp [run_step1], rfl⟩
    | true =>
      rcases h with h | h
      · exact Bool.noConfusion h
      · exact ⟨StepError.emptyDescription, by simp [run_step1, h], rfl⟩
  · intro h
    simp [run_rest, h]

/-- Witness for C6 at concrete inputs: an empty description on the
first press, and an unanswered clarifying question on the second. -/
theorem validation_blocks_submit_witness :
    (∃ e, run_step1 true true (Except.ok ⟨some "u"⟩) "" gwDemo initState =
        ⟨initState, some e, []⟩ ∧ isValidationError e = true)
    ∧ run_rest true gwDemo initState = ⟨initState, some StepError.emptyAnswer, []⟩ :=
  ⟨(validation_blocks_submit initState (Except.ok ⟨some "u"⟩) "" gwDemo true true).1
      (Or.inr (by decide)),
   (validation_blocks_submit initState (Except.ok ⟨some "u"⟩) "" gwDemo true true).2
      (by decide)⟩

/-- Claim C10 (implicit): when the storage call succeeds but its
response lacks a uri, upload_to_jamai returns the empty string instead
of raising; the empty reference is stored as the session's image_uri
and forwarded as the "Crop Image" input, and the press still
succeeds. -/
theorem upload_missing_uri_yields_empty_reference :
    ∀ (s : SessionState) (descr : String) (gw : Gateway) (cols1 cols2 : Cols),
      upload_to_jamai ⟨none⟩ = ""
      ∧ (stripEmpty descr = false →
          gw TABLE_DETECT (detectRequest "" descr) = Except.ok cols1 →
          gw TABLE_FOLLOWUP (followupRequest
            (stage1Store (sessionCapture s "" descr) cols1)) = Except.ok cols2 →
          (run_step1 true true (Except.ok ⟨none⟩) descr gw s).state.image_uri = ""
          ∧ (run_step1 true true (Except.ok ⟨none⟩) descr gw s).err = none
          ∧ (run_step1 true true (Except.ok ⟨none⟩) descr gw s).calls.head? =
              some (TABLE_DETECT, detectRequest "" descr)
          ∧ dlookup (detectRequest "" descr) "Crop Image" = some "") := by
  intro s descr gw cols1 cols2
  refine ⟨rfl, ?_⟩
  intro hd h1 h2
  refine ⟨?_, ?_, ?_, rfl⟩
  · simp only [run_step1, upload_to_jamai, hd, h1, h2]
    simp
    rfl
  · simp [run_step1, upload_to_jamai, hd, h1, h2]
  · simp [run_step1, upload_to_jamai, hd, h1, h2]

/-- Witness for C10 at a concrete input: a uri-less storage response
with the empty-row gateway leaves image_uri empty, forwards "" as
"Crop Image", and the press succeeds. -/
theorem upload_missing_uri_yields_empty_reference_witness :
    (run_step1 true true (Except.ok ⟨none⟩) "desc" gwEmptyOk initState).state.image_uri = ""
    ∧ (run_step1 true true (Except.ok ⟨none⟩) "desc" gwEmptyOk initState).err = none
    ∧ (run_step1 true true (Except.ok ⟨none⟩) "desc" gwEmptyOk initState).calls.head? =
        some (TABLE_DETECT, detectRequest "" "desc")
    ∧ dlookup (detectRequest "" "desc") "Crop Image" = some "" :=
  (upload_missing_uri_yields_empty_reference initState "desc" gwEmptyOk [] []).2
    (by decide) rfl rfl
